import Mathlib

/-!
Shallow embedding of the taxonomy/task-consistency core of the
form-builder (task manager) repository.

The embedding covers:
* the mongoose document schemas `Task` (backend/src/models/Task.ts),
  `TaskStatus`, `TaskLevel`, `Category` (models, including the unnamed
  model files),
* the Joi validation schemas in backend/src/middleware/validation.ts and in
  the route files, together with the `validate` middleware (which only
  inspects `error` and discards Joi's transformed `value`, so Joi defaults
  never reach `req.body`),
* the express route handlers for tasks, task statuses, task levels and
  categories (create / update / delete / initialize-defaults), executed
  sequentially against an in-memory store standing for MongoDB.

Conventions of the embedding:
* MongoDB ObjectIds become `Nat`; the store carries a `nextId` counter that
  plays the role of id generation.
* `Date` values become `Nat` timestamps; the current time is passed as an
  explicit `now` argument where the code calls `new Date()` / Joi `'now'`.
* A Joi object schema rejects unknown keys, so a request body is modelled
  as a record with exactly the keys the schema declares, each `Option`
  (absent = `none`).  In particular a task request body can never carry
  `level`, `completedAt`, `statusId`, `levelId` or `workflowId`: Joi's
  `taskSchema` does not declare them, so such requests fail validation.
* Route handlers that answer an error status without writing are modelled
  as `Except ApiError _`; an `.error` outcome performs no store mutation.
* Mongoose document middleware (`taskSchema.pre('save')` in Task.ts) runs
  on `save()` (document creation path) but not on `findOneAndUpdate`
  (query path), per mongoose semantics; the embedding reflects this: the
  task create handler (which calls `task.save()`) runs the hook, the task
  update handler (which calls `Task.findOneAndUpdate`) does not.
-/

/-- A `TaskStatus` document (backend models, unnamed part_003). -/
structure TaskStatusRec where
  tsId : Nat
  name : String
  description : Option String
  color : String
  order : Nat
  isDefault : Bool
  isCompleted : Bool
  isActive : Bool
  userId : Nat
deriving Repr, DecidableEq

/-- A `TaskLevel` document (backend/src/models/TaskLevel.ts). -/
structure TaskLevelRec where
  lvId : Nat
  name : String
  description : Option String
  level : Nat
  color : String
  icon : Option String
  isDefault : Bool
  isActive : Bool
  userId : Nat
deriving Repr, DecidableEq

/-- A `Category` document (unnamed part_002).  `taskCount` defaults to 0 at
creation; the only code that would refresh it
(`categorySchema.methods.updateTaskCount`) is never invoked anywhere in the
repository. -/
structure CategoryRec where
  catId : Nat
  name : String
  description : Option String
  color : String
  isDefault : Bool
  taskCount : Nat
  userId : Nat
deriving Repr, DecidableEq

/-- A `Task` document (backend/src/models/Task.ts).  `statusId`, `levelId`
and `workflowId` are omitted: no Joi-validated route ever sets them. -/
structure TaskRec where
  taskId : Nat
  title : String
  description : Option String
  category : String
  priority : String
  status : String
  level : Nat
  dueDate : Option Nat
  userId : Nat
  completedAt : Option Nat
deriving Repr, DecidableEq

/-- The persistent store: the four collections plus an id counter. -/
structure Store where
  statuses : List TaskStatusRec
  levels : List TaskLevelRec
  categories : List CategoryRec
  tasks : List TaskRec
  nextId : Nat
deriving Repr, DecidableEq

/-- Error outcomes a route handler can answer with (4xx/5xx responses).
`referenced n` is the 409 response whose message interpolates the count of
referencing tasks; `categoryHasTasks` is the category delete 400 response
(which carries no count); `internalError` is the catch-all 500 produced
when e.g. `save()` rejects on a mongoose schema violation. -/
inductive ApiError where
  | validationError
  | notFound
  | duplicateName
  | duplicateRank
  | protectedDefault
  | referenced (count : Nat)
  | categoryHasTasks
  | alreadyInitialized
  | internalError
deriving Repr, DecidableEq

/-- The legacy fixed status vocabulary accepted by Joi's `taskSchema`
(`Joi.string().valid` in middleware/validation.ts line 46). -/
def legacyStatuses : List String := ["todo", "in_progress", "completed"]

/-- Joi `Joi.string().pattern` for colors: a `#` followed by six hex digits
(case-insensitive). -/
def isHexColor (s : String) : Bool :=
  s.length == 7 && s.startsWith "#" &&
    (s.drop 1).all (fun c => ("0123456789abcdefABCDEF".toList).contains c)

/-- Request body for the tasks routes: exactly the keys Joi's `taskSchema`
declares (title, description, category, priority, status, dueDate). -/
structure TaskBody where
  title : Option String
  description : Option String
  category : Option String
  priority : Option String
  status : Option String
  dueDate : Option Nat
deriving Repr, DecidableEq

/-- Joi `taskSchema` validation (middleware/validation.ts lines 31-50), as
run by the `validate` middleware: `title` and `category` are required
non-empty strings, `priority` must be low/medium/high, `status` must be one
of the legacy literals, `dueDate` must be strictly in the future.  The
middleware discards the transformed value, so the declared defaults
(`medium`, `todo`) are never materialised into the request. -/
def taskBodyValid (now : Nat) (b : TaskBody) : Bool :=
  (match b.title with
   | some t => 1 ≤ t.length && t.length ≤ 200
   | none => false) &&
  (match b.description with
   | some d => d.length ≤ 1000
   | none => true) &&
  (match b.category with
   | some c => 1 ≤ c.length && c.length ≤ 50
   | none => false) &&
  (match b.priority with
   | some p => ["low", "medium", "high"].contains p
   | none => true) &&
  (match b.status with
   | some s => legacyStatuses.contains s
   | none => true) &&
  (match b.dueDate with
   | some d => now < d
   | none => true)

/-- MongoDB `findOne` scoped by id and owning user, on each collection. -/
def findStatusDoc (uid sid : Nat) (st : Store) : Option TaskStatusRec :=
  st.statuses.find? (fun s => s.tsId == sid && s.userId == uid)

/-- MongoDB `findOne` for task levels. -/
def findLevelDoc (uid lid : Nat) (st : Store) : Option TaskLevelRec :=
  st.levels.find? (fun l => l.lvId == lid && l.userId == uid)

/-- MongoDB `findOne` for categories. -/
def findCategoryDoc (uid cid : Nat) (st : Store) : Option CategoryRec :=
  st.categories.find? (fun c => c.catId == cid && c.userId == uid)

/-- MongoDB `findOne` for tasks. -/
def findTaskDoc (uid tid : Nat) (st : Store) : Option TaskRec :=
  st.tasks.find? (fun t => t.taskId == tid && t.userId == uid)

/-- `Task.countDocuments({ userId, status: name })` — the reference count
computed by the task status delete handler. -/
def countTasksUsingStatus (uid : Nat) (name : String) (tasks : List TaskRec) : Nat :=
  (tasks.filter (fun t => t.userId == uid && t.status == name)).length

/-- `Task.countDocuments({ userId, level })` — the reference count computed
by the task level delete handler (it counts by numeric rank). -/
def countTasksUsingLevel (uid : Nat) (rank : Nat) (tasks : List TaskRec) : Nat :=
  (tasks.filter (fun t => t.userId == uid && t.level == rank)).length

/-- The lookup performed by `taskSchema.pre('save')`:
`TaskStatus.findOne({ userId, name: status })`. -/
def findStatusByName (uid : Nat) (name : String) (st : Store) : Option TaskStatusRec :=
  st.statuses.find? (fun s => s.userId == uid && s.name == name)

/-- POST /api/tasks (tasks router).  After the `validate(taskSchema)`
middleware, the handler builds `new Task({...req.body, userId})` and calls
`save()`.  Mongoose applies the schema defaults (`priority` medium when
absent, `level` 5 — the Joi schema admits no `level` key at all) and
rejects the save when the required `status` path is absent (the route catch
answers 500).  The `pre('save')` hook then stamps `completedAt` when the
(new, hence modified) status names an owned TaskStatus with
`isCompleted == true`. -/
def taskCreate (uid : Nat) (b : TaskBody) (now : Nat) (st : Store) :
    Except ApiError (Store × TaskRec) :=
  if ¬ taskBodyValid now b then .error .validationError
  else
    match b.status with
    | none => .error .internalError
    | some s =>
      let stamp : Option Nat :=
        match findStatusByName uid s st with
        | some d => if d.isCompleted then some now else none
        | none => none
      let t : TaskRec :=
        { taskId := st.nextId
          title := b.title.getD ""
          description := b.description
          category := b.category.getD ""
          priority := b.priority.getD "medium"
          status := s
          level := 5
          dueDate := b.dueDate
          userId := uid
          completedAt := stamp }
      .ok ({ st with tasks := st.tasks ++ [t], nextId := st.nextId + 1 }, t)

/-- Replace the first list element satisfying `p` by its image under `f`
(the effect of a single-document `findOneAndUpdate`). -/
def updateFirst (p : TaskRec → Bool) (f : TaskRec → TaskRec) :
    List TaskRec → List TaskRec
  | [] => []
  | t :: ts => if p t then f t :: ts else t :: updateFirst p f ts

/-- The `$set` effect of `Task.findOneAndUpdate(_, req.body, ...)`: each
key present in the (Joi-validated) body overwrites the stored field; absent
keys leave the document untouched.  `completedAt` is not a key of the Joi
schema, so it can never appear in the patch. -/
def applyTaskPatch (b : TaskBody) (t : TaskRec) : TaskRec :=
  { t with
    title := b.title.getD t.title
    description := match b.description with
      | some d => some d
      | none => t.description
    category := b.category.getD t.category
    priority := b.priority.getD t.priority
    status := b.status.getD t.status
    dueDate := match b.dueDate with
      | some d => some d
      | none => t.dueDate }

/-- PUT /api/tasks/:id (tasks router).  After `validate(taskSchema)` the
handler calls `Task.findOneAndUpdate({_id, userId}, req.body, {new: true,
runValidators: true})`.  This is the query path: mongoose document
middleware (`pre('save')`) does not run, so no `completedAt` stamping
happens here. -/
def taskUpdate (uid tid : Nat) (b : TaskBody) (now : Nat) (st : Store) :
    Except ApiError (Store × TaskRec) :=
  if ¬ taskBodyValid now b then .error .validationError
  else
    match findTaskDoc uid tid st with
    | none => .error .notFound
    | some t0 =>
      .ok ({ st with
              tasks := updateFirst (fun t => t.taskId == tid && t.userId == uid)
                (applyTaskPatch b) st.tasks },
           applyTaskPatch b t0)

/-- One task update request (user, task id, body, wall-clock time). -/
structure UpdateReq where
  uid : Nat
  tid : Nat
  body : TaskBody
  now : Nat
deriving Repr, DecidableEq

/-- The store after serving one task update request: the new store on
success, the unchanged store on any error response. -/
def runTaskUpdate (r : UpdateReq) (st : Store) : Store :=
  match taskUpdate r.uid r.tid r.body r.now st with
  | .ok (st', _) => st'
  | .error _ => st

/-- The store after serving a sequence of task update requests. -/
def applyUpdates (l : List UpdateReq) (st : Store) : Store :=
  l.foldl (fun s r => runTaskUpdate r s) st

/-- DELETE /api/task-statuses/:id.  Order of checks in the handler: missing
document (404), `isDefault` (403), referencing-task count (409 carrying the
count), then `deleteOne()`. -/
def statusDelete (uid sid : Nat) (st : Store) : Except ApiError Store :=
  match findStatusDoc uid sid st with
  | none => .error .notFound
  | some s =>
    if s.isDefault then .error .protectedDefault
    else
      let n := countTasksUsingStatus uid s.name st.tasks
      if 0 < n then .error (.referenced n)
      else .ok { st with
                  statuses := st.statuses.eraseP
                    (fun x => x.tsId == sid && x.userId == uid) }

/-- DELETE /api/task-levels/:id.  Same shape as the status delete, but the
reference count is taken over tasks whose numeric `level` equals the
entry's rank. -/
def levelDelete (uid lid : Nat) (st : Store) : Except ApiError Store :=
  match findLevelDoc uid lid st with
  | none => .error .notFound
  | some lv =>
    if lv.isDefault then .error .protectedDefault
    else
      let n := countTasksUsingLevel uid lv.level st.tasks
      if 0 < n then .error (.referenced n)
      else .ok { st with
                  levels := st.levels.eraseP
                    (fun x => x.lvId == lid && x.userId == uid) }

/-- DELETE /api/categories/:id.  The handler checks `isDefault`, then the
stored `taskCount` field — not a live count of referencing tasks — and
deletes via `findByIdAndDelete`. -/
def categoryDelete (uid cid : Nat) (st : Store) : Except ApiError Store :=
  match findCategoryDoc uid cid st with
  | none => .error .notFound
  | some c =>
    if c.isDefault then .error .protectedDefault
    else if 0 < c.taskCount then .error .categoryHasTasks
    else .ok { st with
                categories := st.categories.eraseP (fun x => x.catId == cid) }

/-- Request body for POST /api/task-levels: the keys of Joi's
`taskLevelSchema`. -/
structure LevelBody where
  name : Option String
  description : Option String
  level : Option Nat
  color : Option String
  icon : Option String
  isActive : Option Bool
deriving Repr, DecidableEq

/-- Joi `taskLevelSchema` validation (taskLevels.ts lines 10-17): `name`
(1-50 chars) and `level` (1-10) required, `description` up to 200 chars,
`color` a hex color, `icon` up to 50 chars. -/
def levelBodyValid (b : LevelBody) : Bool :=
  (match b.name with
   | some n => 1 ≤ n.length && n.length ≤ 50
   | none => false) &&
  (match b.description with
   | some d => d.length ≤ 200
   | none => true) &&
  (match b.level with
   | some l => 1 ≤ l && l ≤ 10
   | none => false) &&
  (match b.color with
   | some c => isHexColor c
   | none => true) &&
  (match b.icon with
   | some i => i.length ≤ 50
   | none => true)

/-- POST /api/task-levels.  Order of checks: Joi validation, duplicate
`name` for this user (409 name message), duplicate `level` rank for this
user (409 number message), then insert.  The inserted document takes the
mongoose defaults `isDefault := false`, `color := "#6B7280"` and
`isActive := true` for absent fields (the Joi defaults are discarded by
the middleware). -/
def levelCreate (uid : Nat) (b : LevelBody) (st : Store) :
    Except ApiError (Store × TaskLevelRec) :=
  if ¬ levelBodyValid b then .error .validationError
  else
    let nm := b.name.getD ""
    let rank := b.level.getD 0
    if (st.levels.find? (fun l => l.userId == uid && l.name == nm)).isSome then
      .error .duplicateName
    else if (st.levels.find? (fun l => l.userId == uid && l.level == rank)).isSome then
      .error .duplicateRank
    else
      let lv : TaskLevelRec :=
        { lvId := st.nextId
          name := nm
          description := b.description
          level := rank
          color := b.color.getD "#6B7280"
          icon := b.icon
          isDefault := false
          isActive := b.isActive.getD true
          userId := uid }
      .ok ({ st with levels := st.levels ++ [lv], nextId := st.nextId + 1 }, lv)

/-- Request body for PUT /api/task-statuses/:id: the keys of Joi's
`taskStatusUpdateSchema` (all optional).  `workflowId` is omitted from the
embedding since workflows are not modelled. -/
structure StatusBody where
  name : Option String
  description : Option String
  color : Option String
  order : Option Nat
  isCompleted : Option Bool
  isActive : Option Bool
deriving Repr, DecidableEq

/-- Joi `taskStatusUpdateSchema` validation (taskStatuses.ts lines 20-28).
The `order` minimum of 0 is vacuous over `Nat`. -/
def statusBodyValid (b : StatusBody) : Bool :=
  (match b.name with
   | some n => 1 ≤ n.length && n.length ≤ 50
   | none => true) &&
  (match b.description with
   | some d => d.length ≤ 200
   | none => true) &&
  (match b.color with
   | some c => isHexColor c
   | none => true)

/-- Replace the first matching task status document (the `save()` of the
loaded, mutated document). -/
def updateFirstStatus (p : TaskStatusRec → Bool) (f : TaskStatusRec → TaskStatusRec) :
    List TaskStatusRec → List TaskStatusRec
  | [] => []
  | s :: ss => if p s then f s :: ss else s :: updateFirstStatus p f ss

/-- Field-by-field update of a loaded task status document (the sequence of
`if (field !== undefined) status.field = field` assignments). -/
def applyStatusPatch (b : StatusBody) (s : TaskStatusRec) : TaskStatusRec :=
  { s with
    name := b.name.getD s.name
    description := match b.description with
      | some d => some d
      | none => s.description
    color := b.color.getD s.color
    order := b.order.getD s.order
    isCompleted := b.isCompleted.getD s.isCompleted
    isActive := b.isActive.getD s.isActive }

/-- The new-name conflict test of PUT /api/task-statuses/:id: a provided
name that differs from the loaded document's and is already carried by a
status of the same user (`if (name && name !== status.name)` followed by
the `findOne`). -/
def statusNameConflict (uid : Nat) (b : StatusBody) (s0 : TaskStatusRec)
    (st : Store) : Bool :=
  match b.name with
  | some n =>
    n != s0.name &&
      (st.statuses.find? (fun x => x.userId == uid && x.name == n)).isSome
  | none => false

/-- PUT /api/task-statuses/:id.  Order of checks: Joi validation, missing
document (404), new-name conflict with another status of the same user
(409), then field assignments and `save()`.  Only the status document is
written; no task document is touched. -/
def statusUpdate (uid sid : Nat) (b : StatusBody) (st : Store) :
    Except ApiError (Store × TaskStatusRec) :=
  if ¬ statusBodyValid b then .error .validationError
  else
    match findStatusDoc uid sid st with
    | none => .error .notFound
    | some s0 =>
      if statusNameConflict uid b s0 st then .error .duplicateName
      else
        .ok ({ st with
                statuses := updateFirstStatus
                  (fun x => x.tsId == sid && x.userId == uid)
                  (applyStatusPatch b) st.statuses },
             applyStatusPatch b s0)

/-- Request body for PUT /api/categories/:id: the keys of Joi's
`categoryUpdateSchema`. -/
structure CategoryBody where
  name : Option String
  description : Option String
  color : Option String
deriving Repr, DecidableEq

/-- Joi `categoryUpdateSchema` validation (categories.ts lines 17-21). -/
def categoryBodyValid (b : CategoryBody) : Bool :=
  (match b.name with
   | some n => 1 ≤ n.length && n.length ≤ 50
   | none => true) &&
  (match b.description with
   | some d => d.length ≤ 200
   | none => true) &&
  (match b.color with
   | some c => isHexColor c
   | none => true)

/-- Replace the first matching category document. -/
def updateFirstCategory (p : CategoryRec → Bool) (f : CategoryRec → CategoryRec) :
    List CategoryRec → List CategoryRec
  | [] => []
  | c :: cs => if p c then f c :: cs else c :: updateFirstCategory p f cs

/-- The `$set` effect of `Category.findOneAndUpdate(_, req.body, ...)`. -/
def applyCategoryPatch (b : CategoryBody) (c : CategoryRec) : CategoryRec :=
  { c with
    name := b.name.getD c.name
    description := match b.description with
      | some d => some d
      | none => c.description
    color := b.color.getD c.color }

/-- PUT /api/categories/:id.  Order of checks: Joi validation, new-name
conflict with a different category (`_id: { $ne: id }`) of the same user
(400), then `findOneAndUpdate` (404 when the document is missing).  Only
the category document is written; no task document is touched.  The
conflict test mirrors the `findOne` with `_id: { $ne: id }`. -/
def categoryNameConflict (uid cid : Nat) (b : CategoryBody) (st : Store) : Bool :=
  match b.name with
  | some n =>
    (st.categories.find?
      (fun c => c.userId == uid && c.name == n && c.catId != cid)).isSome
  | none => false

def categoryUpdate (uid cid : Nat) (b : CategoryBody) (st : Store) :
    Except ApiError (Store × CategoryRec) :=
  if ¬ categoryBodyValid b then .error .validationError
  else
    if categoryNameConflict uid cid b st then .error .duplicateName
    else
      match findCategoryDoc uid cid st with
      | none => .error .notFound
      | some c0 =>
        .ok ({ st with
                categories := updateFirstCategory
                  (fun x => x.catId == cid && x.userId == uid)
                  (applyCategoryPatch b) st.categories },
             applyCategoryPatch b c0)

/-- The five seeded default task statuses (taskStatuses.ts lines 205-211),
with ids drawn from the counter `n`.  `isActive` takes the mongoose
default `true`. -/
def mkDefaultStatuses (uid n : Nat) : List TaskStatusRec :=
  [ { tsId := n, name := "To Do", description := some "Tasks that need to be started",
      color := "#6B7280", order := 1, isCompleted := false, isDefault := true,
      isActive := true, userId := uid },
    { tsId := n + 1, name := "In Progress",
      description := some "Tasks currently being worked on",
      color := "#F59E0B", order := 2, isCompleted := false, isDefault := true,
      isActive := true, userId := uid },
    { tsId := n + 2, name := "Review", description := some "Tasks ready for review",
      color := "#3B82F6", order := 3, isCompleted := false, isDefault := true,
      isActive := true, userId := uid },
    { tsId := n + 3, name := "Completed", description := some "Finished tasks",
      color := "#10B981", order := 4, isCompleted := true, isDefault := true,
      isActive := true, userId := uid },
    { tsId := n + 4, name := "On Hold", description := some "Tasks temporarily paused",
      color := "#EF4444", order := 5, isCompleted := false, isDefault := true,
      isActive := true, userId := uid } ]

/-- The five seeded default categories (categories.ts lines 222-228), with
the mongoose default `taskCount := 0`. -/
def mkDefaultCategories (uid n : Nat) : List CategoryRec :=
  [ { catId := n, name := "Work", description := some "Work-related tasks",
      color := "#3B82F6", isDefault := true, taskCount := 0, userId := uid },
    { catId := n + 1, name := "Personal", description := some "Personal tasks",
      color := "#10B981", isDefault := true, taskCount := 0, userId := uid },
    { catId := n + 2, name := "Health", description := some "Health and fitness tasks",
      color := "#F59E0B", isDefault := true, taskCount := 0, userId := uid },
    { catId := n + 3, name := "Learning",
      description := some "Learning and education tasks",
      color := "#8B5CF6", isDefault := true, taskCount := 0, userId := uid },
    { catId := n + 4, name := "Shopping", description := some "Shopping and errands",
      color := "#EF4444", isDefault := true, taskCount := 0, userId := uid } ]

/-- The five seeded default task levels (taskLevels.ts lines 215-221); the
icon strings are the emoji the source stores. -/
def mkDefaultLevels (uid n : Nat) : List TaskLevelRec :=
  [ { lvId := n, name := "Critical", description := some "Highest priority tasks",
      level := 1, color := "#DC2626", icon := some "🔥", isDefault := true,
      isActive := true, userId := uid },
    { lvId := n + 1, name := "High", description := some "Important tasks",
      level := 2, color := "#EA580C", icon := some "⚡", isDefault := true,
      isActive := true, userId := uid },
    { lvId := n + 2, name := "Medium", description := some "Normal priority tasks",
      level := 3, color := "#D97706", icon := some "📋", isDefault := true,
      isActive := true, userId := uid },
    { lvId := n + 3, name := "Low", description := some "Lower priority tasks",
      level := 4, color := "#059669", icon := some "📝", isDefault := true,
      isActive := true, userId := uid },
    { lvId := n + 4, name := "Backlog", description := some "Future tasks",
      level := 5, color := "#6B7280", icon := some "📚", isDefault := true,
      isActive := true, userId := uid } ]

/-- `TaskStatus.countDocuments({ userId })` — the ownership count guarding
initialize-defaults. -/
def countStatusesOf (uid : Nat) (st : Store) : Nat :=
  (st.statuses.filter (fun s => s.userId == uid)).length

/-- `Category.countDocuments({ userId })`. -/
def countCategoriesOf (uid : Nat) (st : Store) : Nat :=
  (st.categories.filter (fun c => c.userId == uid)).length

/-- `TaskLevel.countDocuments({ userId })`. -/
def countLevelsOf (uid : Nat) (st : Store) : Nat :=
  (st.levels.filter (fun l => l.userId == uid)).length

/-- POST /api/task-statuses/initialize-defaults: 400 when the user already
owns a status, otherwise save the five seeds in order and return them. -/
def initializeStatuses (uid : Nat) (st : Store) :
    Except ApiError (Store × List TaskStatusRec) :=
  if 0 < countStatusesOf uid st then .error .alreadyInitialized
  else
    let created := mkDefaultStatuses uid st.nextId
    .ok ({ st with statuses := st.statuses ++ created, nextId := st.nextId + 5 },
         created)

/-- POST /api/categories/initialize-defaults (`insertMany` of the seeds). -/
def initializeCategories (uid : Nat) (st : Store) :
    Except ApiError (Store × List CategoryRec) :=
  if 0 < countCategoriesOf uid st then .error .alreadyInitialized
  else
    let created := mkDefaultCategories uid st.nextId
    .ok ({ st with categories := st.categories ++ created, nextId := st.nextId + 5 },
         created)

/-- POST /api/task-levels/initialize-defaults. -/
def initializeLevels (uid : Nat) (st : Store) :
    Except ApiError (Store × List TaskLevelRec) :=
  if 0 < countLevelsOf uid st then .error .alreadyInitialized
  else
    let created := mkDefaultLevels uid st.nextId
    .ok ({ st with levels := st.levels ++ created, nextId := st.nextId + 5 },
         created)

/-- The store after serving a status delete request: unchanged on error. -/
def runStatusDelete (uid sid : Nat) (st : Store) : Store :=
  match statusDelete uid sid st with
  | .ok st' => st'
  | .error _ => st

/-- The store after serving a level delete request: unchanged on error. -/
def runLevelDelete (uid lid : Nat) (st : Store) : Store :=
  match levelDelete uid lid st with
  | .ok st' => st'
  | .error _ => st

/-- The store after serving a category delete request. -/
def runCategoryDelete (uid cid : Nat) (st : Store) : Store :=
  match categoryDelete uid cid st with
  | .ok st' => st'
  | .error _ => st

/-- The store after serving a level create request: unchanged on error. -/
def runLevelCreate (uid : Nat) (b : LevelBody) (st : Store) : Store :=
  match levelCreate uid b st with
  | .ok (st', _) => st'
  | .error _ => st

/-- The store after serving a task create request: unchanged on error. -/
def runTaskCreate (uid : Nat) (b : TaskBody) (now : Nat) (st : Store) : Store :=
  match taskCreate uid b now st with
  | .ok (st', _) => st'
  | .error _ => st

/-- The store after serving a status update request: unchanged on error. -/
def runStatusUpdate (uid sid : Nat) (b : StatusBody) (st : Store) : Store :=
  match statusUpdate uid sid b st with
  | .ok (st', _) => st'
  | .error _ => st

/-- Joi `categorySchema` for category creation (categories.ts lines 11-15):
like the update schema but with `name` required. -/
def categoryCreateBodyValid (b : CategoryBody) : Bool :=
  (match b.name with
   | some n => 1 ≤ n.length && n.length ≤ 50
   | none => false) &&
  (match b.description with
   | some d => d.length ≤ 200
   | none => true) &&
  (match b.color with
   | some c => isHexColor c
   | none => true)

/-- POST /api/categories.  Duplicate-name check for the user (400), then
`new Category({...req.body, userId})` and `save()`; the mongoose defaults
give `isDefault := false`, `taskCount := 0` and `color := "#3B82F6"` for
absent fields. -/
def categoryCreate (uid : Nat) (b : CategoryBody) (st : Store) :
    Except ApiError (Store × CategoryRec) :=
  if ¬ categoryCreateBodyValid b then .error .validationError
  else if (st.categories.find?
      (fun c => c.userId == uid && c.name == b.name.getD "")).isSome then
    .error .duplicateName
  else
    let c : CategoryRec :=
      { catId := st.nextId
        name := b.name.getD ""
        description := b.description
        color := b.color.getD "#3B82F6"
        isDefault := false
        taskCount := 0
        userId := uid }
    .ok ({ st with categories := st.categories ++ [c], nextId := st.nextId + 1 }, c)

/-- A store with no documents at all. -/
def emptyStore : Store :=
  { statuses := [], levels := [], categories := [], tasks := [], nextId := 1 }

/-- A user-created (non-default) task status named with the legacy literal
`completed` and marked as a completion state. -/
def statusCompletedRow : TaskStatusRec :=
  { tsId := 6, name := "completed", description := none, color := "#10B981",
    order := 6, isCompleted := true, isDefault := false, isActive := true,
    userId := 1 }

/-- A task of user 1 that is not yet completed. -/
def taskRow : TaskRec :=
  { taskId := 7, title := "Ship report", description := none, category := "Work",
    priority := "medium", status := "todo", level := 5, dueDate := none,
    userId := 1, completedAt := none }

/-- User 1 with the five seeded statuses, one custom completion status and
one open task. -/
def storeC1 : Store :=
  { statuses := mkDefaultStatuses 1 1 ++ [statusCompletedRow], levels := [],
    categories := [], tasks := [taskRow], nextId := 8 }

/-- The update request that moves the task to the completion status. -/
def bodyC1 : TaskBody :=
  { title := some "Ship report", description := none, category := some "Work",
    priority := none, status := some "completed", dueDate := none }

/-- Category creation request used in the C2 scenario. -/
def bodyWorkCat : CategoryBody :=
  { name := some "Work", description := none, color := none }

/-- Task creation request referencing the `Work` category. -/
def bodyTaskInWork : TaskBody :=
  { title := some "Ship report", description := none, category := some "Work",
    priority := none, status := some "todo", dueDate := none }

/-- Store after creating the `Work` category in the empty store. -/
def storeAfterCat : Store := match categoryCreate 1 bodyWorkCat emptyStore with
  | .ok (st', _) => st'
  | .error _ => emptyStore

/-- Store after additionally creating a task assigned to `Work`. -/
def storeAfterTask : Store := runTaskCreate 1 bodyTaskInWork 100 storeAfterCat

/-- User 1 with only the five seeded statuses and no tasks. -/
def storeC3 : Store :=
  { statuses := mkDefaultStatuses 1 1, levels := [], categories := [],
    tasks := [], nextId := 6 }

/-- A task creation request that omits `status`. -/
def bodyNoStatus : TaskBody :=
  { title := some "Ship report", description := none, category := some "Work",
    priority := none, status := none, dueDate := none }

/-- The task produced by `taskCreate 1 bodyTaskInWork 100 emptyStore`. -/
def taskCreatedInEmpty : TaskRec :=
  { taskId := 1, title := "Ship report", description := none, category := "Work",
    priority := "medium", status := "todo", level := 5, dueDate := none,
    userId := 1, completedAt := none }

/-- The store produced by `taskCreate 1 bodyTaskInWork 100 emptyStore`. -/
def storeAfterTaskOnly : Store :=
  { emptyStore with tasks := [taskCreatedInEmpty], nextId := 2 }

/-- The id-and-stamp projection of a task document: preserved verbatim by
every task update request. -/
def taskStamp (t : TaskRec) : Nat × Option Nat := (t.taskId, t.completedAt)

/-- A task sitting in the seeded default `Completed` status. -/
def taskDoneRow : TaskRec :=
  { taskId := 6, title := "Ship report", description := none, category := "Work",
    priority := "medium", status := "Completed", level := 5, dueDate := none,
    userId := 1, completedAt := some 50 }

/-- User 1 with the seeded statuses and one task in `Completed`. -/
def storeC5 : Store :=
  { statuses := mkDefaultStatuses 1 1, levels := [], categories := [],
    tasks := [taskDoneRow], nextId := 7 }

/-- User 1 with the custom completion status and one task referencing it. -/
def storeC5w : Store :=
  { statuses := [statusCompletedRow], levels := [], categories := [],
    tasks := [{ taskRow with status := "completed" }], nextId := 9 }

/-- User 1 with the five seeded (default) task levels. -/
def storeLevels : Store :=
  { statuses := [], levels := mkDefaultLevels 1 1, categories := [],
    tasks := [], nextId := 6 }

/-- A user-created (non-default) task level of rank 2. -/
def highLevelRow : TaskLevelRec :=
  { lvId := 2, name := "High", description := none, level := 2,
    color := "#6B7280", icon := none, isDefault := false, isActive := true,
    userId := 1 }

/-- User 1 owning a single custom level of rank 2. -/
def storeC7 : Store :=
  { statuses := [], levels := [highLevelRow], categories := [], tasks := [],
    nextId := 3 }

/-- A level creation request colliding with `highLevelRow` on both name and
rank. -/
def bodyDupBoth : LevelBody :=
  { name := some "High", description := none, level := some 2, color := none,
    icon := none, isActive := none }

/-- A level creation request with a fresh name but the taken rank 2. -/
def bodyRankClash : LevelBody :=
  { name := some "Urgent", description := none, level := some 2, color := none,
    icon := none, isActive := none }

/-- A rename request for a task status. -/
def bodyRename : StatusBody :=
  { name := some "Queued", description := none, color := none, order := none,
    isCompleted := none, isActive := none }

/-- A task of user 1 whose `status` string is the seeded name `To Do`. -/
def taskToDoRow : TaskRec :=
  { taskId := 6, title := "Ship report", description := none, category := "Work",
    priority := "medium", status := "To Do", level := 5, dueDate := none,
    userId := 1, completedAt := none }

/-- A user-created category named `Work` with id 7. -/
def workCategoryRow : CategoryRec :=
  { catId := 7, name := "Work", description := none, color := "#3B82F6",
    isDefault := false, taskCount := 0, userId := 1 }

/-- Seeded statuses plus one task naming `To Do`, for the rename scenario. -/
def storeC9 : Store :=
  { statuses := mkDefaultStatuses 1 1, levels := [],
    categories := [workCategoryRow],
    tasks := [taskToDoRow], nextId := 8 }

/-- Placeholder status document for the impossible error branches below. -/
def dummyStatusRow : TaskStatusRec :=
  { tsId := 0, name := "", description := none, color := "", order := 0,
    isDefault := false, isCompleted := false, isActive := false, userId := 0 }

/-- Placeholder category document for the impossible error branches below. -/
def dummyCategoryRow : CategoryRec :=
  { catId := 0, name := "", description := none, color := "",
    isDefault := false, taskCount := 0, userId := 0 }

/-- The result of renaming status 1 (`To Do`) of `storeC9` to `Queued`. -/
def statusUpdateResultC9 : Store × TaskStatusRec :=
  match statusUpdate 1 1 bodyRename storeC9 with
  | .ok r => r
  | .error _ => (storeC9, dummyStatusRow)

/-- The rename request turning `Work` into `Office`. -/
def bodyRenameCat : CategoryBody :=
  { name := some "Office", description := none, color := none }

/-- The result of renaming category 7 (`Work`) of `storeC9` to `Office`. -/
def categoryUpdateResultC9 : Store × CategoryRec :=
  match categoryUpdate 1 7 bodyRenameCat storeC9 with
  | .ok r => r
  | .error _ => (storeC9, dummyCategoryRow)

theorem applyTaskPatch_stamp (b : TaskBody) (t : TaskRec) :
    taskStamp (applyTaskPatch b t) = taskStamp t := rfl

theorem updateFirst_map_stamp (p : TaskRec → Bool) (b : TaskBody) :
    ∀ l : List TaskRec,
      (updateFirst p (applyTaskPatch b) l).map taskStamp = l.map taskStamp := by
  intro l
  induction l with
  | nil => rfl
  | cons t ts ih =>
    unfold updateFirst
    cases hp : p t
    · simp only [Bool.false_eq_true, if_false, List.map_cons]
      rw [ih]
    · simp only [if_true, List.map_cons, applyTaskPatch_stamp]

theorem taskUpdate_ok_tasks {uid tid : Nat} {b : TaskBody} {now : Nat}
    {st st' : Store} {t : TaskRec}
    (h : taskUpdate uid tid b now st = .ok (st', t)) :
    st'.tasks = updateFirst (fun x => x.taskId == tid && x.userId == uid)
      (applyTaskPatch b) st.tasks := by
  unfold taskUpdate at h
  split at h
  · simp at h
  · split at h
    · simp at h
    · simp only [Except.ok.injEq, Prod.mk.injEq] at h
      obtain ⟨h1, _⟩ := h
      subst h1
      rfl

theorem runTaskUpdate_map_stamp (r : UpdateReq) (st : Store) :
    (runTaskUpdate r st).tasks.map taskStamp = st.tasks.map taskStamp := by
  unfold runTaskUpdate
  split
  · next st' t h =>
      rw [taskUpdate_ok_tasks h]
      exact updateFirst_map_stamp _ _ _
  · rfl

/-- C1 — code-bug evaluation.  The claim says the task returned by the
update route has `completedAt` stamped when `status` moves to a name whose
owned TaskStatus has `isCompleted == true` and the stamp was unset.  At the
failing input below every premise of the claim holds (user 1 owns the
non-default completion status named `completed`, the task's stamp is
unset), yet the update — which goes through `findOneAndUpdate` and hence
never runs the stamping `pre('save')` hook — returns and stores the task
with `completedAt` still unset. -/
theorem c1_update_leaves_completedAt_unset :
    statusCompletedRow ∈ storeC1.statuses ∧
    statusCompletedRow.userId = taskRow.userId ∧
    statusCompletedRow.name = "completed" ∧
    statusCompletedRow.isCompleted = true ∧
    taskRow.completedAt = none ∧
    taskUpdate 1 7 bodyC1 100 storeC1 =
      .ok ({ storeC1 with tasks := [{ taskRow with status := "completed" }] },
           { taskRow with status := "completed" }) ∧
    ({ taskRow with status := "completed" } : TaskRec).completedAt = none :=
  ⟨by decide, rfl, rfl, rfl, rfl, rfl, rfl⟩

/-- C2 — code-bug evaluation.  The claim says deleting a non-default
category whose name is referenced by a task must fail.  Starting from the
empty store, create the category `Work`, create a task assigned to `Work`,
and delete the category: the delete succeeds and removes the row (the
guard reads the stored `taskCount`, which nothing in the repository ever
updates, so it is still 0) while the referencing task is still there. -/
theorem c2_referenced_category_deleted :
    storeAfterTask.categories.map (fun c => (c.name, c.isDefault, c.taskCount)) =
      [("Work", false, 0)] ∧
    (storeAfterTask.tasks.filter
      (fun t => t.userId == 1 && t.category == "Work")).length = 1 ∧
    categoryDelete 1 1 storeAfterTask =
      .ok { storeAfterTask with categories := [] } ∧
    (runCategoryDelete 1 1 storeAfterTask).tasks = storeAfterTask.tasks :=
  ⟨rfl, rfl, rfl, rfl⟩

/-- C3 — counterexample.  A create request that omits `status` (passing
Joi validation, with the seeded taxonomy present and `To Do` its
lowest-order non-completed status) does not produce a task whose status is
`To Do`: the handler answers the 500 catch-all (mongoose rejects the save
because the required `status` path is absent — the Joi default `todo` was
discarded by the middleware) and writes nothing. -/
theorem c3_counterexample_omitted_status :
    taskBodyValid 100 bodyNoStatus = true ∧
    bodyNoStatus.status = none ∧
    storeC3.statuses.map (fun s => (s.name, s.isCompleted, s.order)) =
      [("To Do", false, 1), ("In Progress", false, 2), ("Review", false, 3),
       ("Completed", true, 4), ("On Hold", false, 5)] ∧
    taskCreate 1 bodyNoStatus 100 storeC3 = .error .internalError ∧
    runTaskCreate 1 bodyNoStatus 100 storeC3 = storeC3 :=
  ⟨rfl, rfl, rfl, rfl, rfl⟩

/-- C3 — amended claim.  A create request that omits `status` always fails
(no task is created; there is no defaulting, neither to the lowest-order
non-completed status nor to `todo`), and every task that a create request
does produce has `level` 5 (the mongoose default; the Joi schema admits no
`level` key). -/
theorem c3_amended_create_defaults :
    (∀ (uid : Nat) (b : TaskBody) (now : Nat) (st : Store), b.status = none →
       ∃ e, taskCreate uid b now st = .error e) ∧
    (∀ (uid : Nat) (b : TaskBody) (now : Nat) (st st' : Store) (t : TaskRec),
       taskCreate uid b now st = .ok (st', t) → t.level = 5) := by
  constructor
  · intro uid b now st h
    unfold taskCreate
    split
    · exact ⟨.validationError, rfl⟩
    · rw [h]
      exact ⟨.internalError, rfl⟩
  · intro uid b now st st' t h
    unfold taskCreate at h
    split at h
    · simp at h
    · split at h
      · simp at h
      · simp only [Except.ok.injEq, Prod.mk.injEq] at h
        obtain ⟨_, h2⟩ := h
        subst h2
        rfl

/-- C3 — witness for the amended claim: the status-less request from the
counterexample errors, and the concrete create of `bodyTaskInWork` in the
empty store yields a task of level 5. -/
theorem c3_amended_witness :
    (∃ e, taskCreate 1 bodyNoStatus 100 storeC3 = .error e) ∧
    taskCreatedInEmpty.level = 5 :=
  ⟨c3_amended_create_defaults.1 1 bodyNoStatus 100 storeC3 rfl,
   c3_amended_create_defaults.2 1 bodyTaskInWork 100 emptyStore
     storeAfterTaskOnly taskCreatedInEmpty rfl⟩

/-- C4 — confirmed.  Over any sequence of task update requests served by
the update route, the association of task id to `completedAt` stamp over
the stored tasks is unchanged: once (or never) set, a stamp is neither
cleared nor altered by later status transitions, because the Joi schema
admits no `completedAt` key and the query-path update runs no stamping
hook. -/
theorem c4_completedAt_preserved_by_updates :
    ∀ (l : List UpdateReq) (st : Store),
      (applyUpdates l st).tasks.map taskStamp = st.tasks.map taskStamp := by
  intro l
  induction l with
  | nil => intro st; rfl
  | cons r rs ih =>
    intro st
    have hstep : applyUpdates (r :: rs) st = applyUpdates rs (runTaskUpdate r st) := rfl
    rw [hstep, ih, runTaskUpdate_map_stamp]

/-- C5 — counterexample.  The seeded `Completed` status of user 1 is
referenced by exactly one task, yet its delete fails with the
protected-default error, not with the referenced-entries error carrying the
count: the `isDefault` guard fires first. -/
theorem c5_counterexample_default_referenced :
    countTasksUsingStatus 1 "Completed" storeC5.tasks = 1 ∧
    (findStatusDoc 1 4 storeC5).map (fun s => (s.name, s.isDefault)) =
      some ("Completed", true) ∧
    statusDelete 1 4 storeC5 = .error .protectedDefault ∧
    statusDelete 1 4 storeC5 ≠ .error (.referenced 1) := by
  refine ⟨rfl, rfl, rfl, ?_⟩
  intro h
  rw [show statusDelete 1 4 storeC5 = .error .protectedDefault from rfl] at h
  simp at h

/-- C5 — amended claim: for every NON-default task status of a user that
is referenced by at least one of that user's tasks, delete fails with the
referenced-entries error whose carried count is exactly the number of that
user's tasks whose `status` string equals the entry's name, and the store
is unchanged.  (For a default status the protected-default guard answers
first.) -/
theorem c5_amended_statusDelete_referenced (uid sid : Nat) (st : Store)
    (s : TaskStatusRec) (hfind : findStatusDoc uid sid st = some s)
    (hdef : s.isDefault = false)
    (href : 0 < countTasksUsingStatus uid s.name st.tasks) :
    statusDelete uid sid st =
      .error (.referenced (countTasksUsingStatus uid s.name st.tasks)) ∧
    runStatusDelete uid sid st = st := by
  have hd : statusDelete uid sid st =
      .error (.referenced (countTasksUsingStatus uid s.name st.tasks)) := by
    unfold statusDelete
    rw [hfind]
    simp [hdef, href]
  refine ⟨hd, ?_⟩
  unfold runStatusDelete
  rw [hd]

/-- C5 — witness: the non-default `completed` status of user 1 is
referenced by exactly one task; its delete carries count 1 and removes
nothing. -/
theorem c5_amended_witness :
    statusDelete 1 6 storeC5w = .error (.referenced 1) ∧
    runStatusDelete 1 6 storeC5w = storeC5w := by
  have h := c5_amended_statusDelete_referenced 1 6 storeC5w statusCompletedRow
    rfl rfl (by decide)
  exact ⟨h.1, h.2⟩

/-- C6 — confirmed.  Deleting a default task status (and likewise a
default task level) owned by the caller always fails with the
protected-default error — the guard precedes the reference count, so the
number of referencing tasks (zero included) is irrelevant — and the store
is unchanged. -/
theorem c6_default_delete_protected :
    (∀ (uid sid : Nat) (st : Store) (s : TaskStatusRec),
      findStatusDoc uid sid st = some s → s.isDefault = true →
      statusDelete uid sid st = .error .protectedDefault ∧
      runStatusDelete uid sid st = st) ∧
    (∀ (uid lid : Nat) (st : Store) (lv : TaskLevelRec),
      findLevelDoc uid lid st = some lv → lv.isDefault = true →
      levelDelete uid lid st = .error .protectedDefault ∧
      runLevelDelete uid lid st = st) := by
  constructor
  · intro uid sid st s hfind hdef
    have hd : statusDelete uid sid st = .error .protectedDefault := by
      unfold statusDelete
      rw [hfind]
      simp [hdef]
    refine ⟨hd, ?_⟩
    unfold runStatusDelete
    rw [hd]
  · intro uid lid st lv hfind hdef
    have hd : levelDelete uid lid st = .error .protectedDefault := by
      unfold levelDelete
      rw [hfind]
      simp [hdef]
    refine ⟨hd, ?_⟩
    unfold runLevelDelete
    rw [hd]

/-- C6 — witness: the seeded `To Do` status with zero referencing tasks,
the seeded `Completed` status with one referencing task, and the seeded
`Critical` level all refuse deletion with the protected-default error. -/
theorem c6_witness :
    statusDelete 1 1 storeC3 = .error .protectedDefault ∧
    runStatusDelete 1 1 storeC3 = storeC3 ∧
    countTasksUsingStatus 1 "To Do" storeC3.tasks = 0 ∧
    statusDelete 1 4 storeC5 = .error .protectedDefault ∧
    countTasksUsingStatus 1 "Completed" storeC5.tasks = 1 ∧
    levelDelete 1 1 storeLevels = .error .protectedDefault ∧
    runLevelDelete 1 1 storeLevels = storeLevels := by
  have h1 := c6_default_delete_protected.1 1 1 storeC3
    ⟨1, "To Do", some "Tasks that need to be started", "#6B7280", 1, true,
      false, true, 1⟩ rfl rfl
  have h2 := c6_default_delete_protected.1 1 4 storeC5
    ⟨4, "Completed", some "Finished tasks", "#10B981", 4, true, true, true, 1⟩
    rfl rfl
  have h3 := c6_default_delete_protected.2 1 1 storeLevels
    ⟨1, "Critical", some "Highest priority tasks", 1, "#DC2626", some "🔥",
      true, true, 1⟩ rfl rfl
  exact ⟨h1.1, h1.2, rfl, h2.1, rfl, h3.1, h3.2⟩

/-- C7 — counterexample.  User 1 owns a level of rank 2 named `High`.
Creating a second level with rank 2 does not always fail with the
duplicate-rank error: when the request's name also collides, the
duplicate-name check answers first. -/
theorem c7_counterexample_name_precedence :
    highLevelRow.userId = 1 ∧ highLevelRow.level = 2 ∧
    highLevelRow ∈ storeC7.levels ∧
    bodyDupBoth.level = some 2 ∧
    levelCreate 1 bodyDupBoth storeC7 = .error .duplicateName ∧
    levelCreate 1 bodyDupBoth storeC7 ≠ .error .duplicateRank := by
  refine ⟨rfl, rfl, by decide, rfl, rfl, ?_⟩
  intro h
  rw [show levelCreate 1 bodyDupBoth storeC7 = .error .duplicateName from rfl] at h
  simp at h

/-- C7 — amended claim: a valid level creation whose name is fresh for the
user but whose rank is already taken by the same user fails with the
duplicate-rank error and inserts no row; when both name and rank are fresh
for that user the creation succeeds regardless of other users' rows — so
the same rank may be created by a different user. -/
theorem c7_amended_rank_unique_per_user :
    (∀ (uid : Nat) (b : LevelBody) (st : Store),
      levelBodyValid b = true →
      st.levels.find? (fun l => l.userId == uid && l.name == b.name.getD "") = none →
      (st.levels.find? (fun l => l.userId == uid && l.level == b.level.getD 0)).isSome = true →
      levelCreate uid b st = .error .duplicateRank ∧ runLevelCreate uid b st = st) ∧
    (∀ (uid : Nat) (b : LevelBody) (st : Store),
      levelBodyValid b = true →
      st.levels.find? (fun l => l.userId == uid && l.name == b.name.getD "") = none →
      st.levels.find? (fun l => l.userId == uid && l.level == b.level.getD 0) = none →
      ∃ st' lv, levelCreate uid b st = .ok (st', lv) ∧ lv.userId = uid ∧
        lv.level = b.level.getD 0 ∧ st'.levels = st.levels ++ [lv]) := by
  constructor
  · intro uid b st hv hname hrank
    have hd : levelCreate uid b st = .error .duplicateRank := by
      unfold levelCreate
      simp [hv, hname, hrank]
    refine ⟨hd, ?_⟩
    unfold runLevelCreate
    rw [hd]
  · intro uid b st hv hname hrank
    refine ⟨{ st with
        levels := st.levels ++
          [⟨st.nextId, b.name.getD "", b.description, b.level.getD 0,
            b.color.getD "#6B7280", b.icon, false, b.isActive.getD true, uid⟩],
        nextId := st.nextId + 1 },
      ⟨st.nextId, b.name.getD "", b.description, b.level.getD 0,
        b.color.getD "#6B7280", b.icon, false, b.isActive.getD true, uid⟩,
      ?_, rfl, rfl, rfl⟩
    unfold levelCreate
    simp [hv, hname, hrank]

/-- C7 — witness: for user 1, the `Urgent` request with the taken rank 2
fails with the duplicate-rank error and inserts nothing; user 2 creates a
level of the same rank 2 successfully. -/
theorem c7_amended_witness :
    levelCreate 1 bodyRankClash storeC7 = .error .duplicateRank ∧
    runLevelCreate 1 bodyRankClash storeC7 = storeC7 ∧
    (∃ st' lv, levelCreate 2 bodyDupBoth storeC7 = .ok (st', lv) ∧
      lv.userId = 2 ∧ lv.level = 2 ∧ st'.levels = storeC7.levels ++ [lv]) := by
  have h1 := c7_amended_rank_unique_per_user.1 1 bodyRankClash storeC7 rfl rfl rfl
  have h2 := c7_amended_rank_unique_per_user.2 2 bodyDupBoth storeC7 rfl rfl rfl
  exact ⟨h1.1, h1.2, h2⟩

/-- A task request naming the seeded dynamic status `To Do`. -/
def bodyToDoName : TaskBody :=
  { title := some "Ship report", description := none, category := some "Work",
    priority := none, status := some "To Do", dueDate := none }

/-- The store produced by a successful status seeding. -/
def seedStatusesStore (uid : Nat) (st : Store) : Store :=
  { st with
    statuses := st.statuses ++ mkDefaultStatuses uid st.nextId,
    nextId := st.nextId + 5 }

/-- The store produced by a successful category seeding. -/
def seedCategoriesStore (uid : Nat) (st : Store) : Store :=
  { st with
    categories := st.categories ++ mkDefaultCategories uid st.nextId,
    nextId := st.nextId + 5 }

/-- The store produced by a successful level seeding. -/
def seedLevelsStore (uid : Nat) (st : Store) : Store :=
  { st with
    levels := st.levels ++ mkDefaultLevels uid st.nextId,
    nextId := st.nextId + 5 }

/-- C8 — confirmed.  For each taxonomy kind, initialize-defaults fails
with the already-initialized error when the user owns at least one entry
of that kind, and otherwise inserts exactly the five seeded entries — all
tagged `isDefault`, the statuses containing exactly one completion state —
and returns them. -/
theorem c8_initialize_defaults :
    (∀ (uid : Nat) (st : Store), 0 < countStatusesOf uid st →
      initializeStatuses uid st = .error .alreadyInitialized) ∧
    (∀ (uid : Nat) (st : Store), countStatusesOf uid st = 0 →
      initializeStatuses uid st =
        .ok (seedStatusesStore uid st, mkDefaultStatuses uid st.nextId) ∧
      (mkDefaultStatuses uid st.nextId).length = 5 ∧
      (∀ s ∈ mkDefaultStatuses uid st.nextId, s.isDefault = true) ∧
      ((mkDefaultStatuses uid st.nextId).filter (fun s => s.isCompleted)).length = 1) ∧
    (∀ (uid : Nat) (st : Store), 0 < countCategoriesOf uid st →
      initializeCategories uid st = .error .alreadyInitialized) ∧
    (∀ (uid : Nat) (st : Store), countCategoriesOf uid st = 0 →
      initializeCategories uid st =
        .ok (seedCategoriesStore uid st, mkDefaultCategories uid st.nextId) ∧
      (mkDefaultCategories uid st.nextId).length = 5 ∧
      (∀ c ∈ mkDefaultCategories uid st.nextId, c.isDefault = true)) ∧
    (∀ (uid : Nat) (st : Store), 0 < countLevelsOf uid st →
      initializeLevels uid st = .error .alreadyInitialized) ∧
    (∀ (uid : Nat) (st : Store), countLevelsOf uid st = 0 →
      initializeLevels uid st =
        .ok (seedLevelsStore uid st, mkDefaultLevels uid st.nextId) ∧
      (mkDefaultLevels uid st.nextId).length = 5 ∧
      (∀ l ∈ mkDefaultLevels uid st.nextId, l.isDefault = true)) := by
  refine ⟨?_, ?_, ?_, ?_, ?_, ?_⟩
  · intro uid st h
    unfold initializeStatuses
    rw [if_pos h]
  · intro uid st h
    refine ⟨?_, rfl, ?_, rfl⟩
    · unfold initializeStatuses
      rw [h]
      rfl
    · intro s hs
      simp only [mkDefaultStatuses, List.mem_cons, List.not_mem_nil, or_false] at hs
      rcases hs with rfl | rfl | rfl | rfl | rfl <;> rfl
  · intro uid st h
    unfold initializeCategories
    rw [if_pos h]
  · intro uid st h
    refine ⟨?_, rfl, ?_⟩
    · unfold initializeCategories
      rw [h]
      rfl
    · intro c hc
      simp only [mkDefaultCategories, List.mem_cons, List.not_mem_nil, or_false] at hc
      rcases hc with rfl | rfl | rfl | rfl | rfl <;> rfl
  · intro uid st h
    unfold initializeLevels
    rw [if_pos h]
  · intro uid st h
    refine ⟨?_, rfl, ?_⟩
    · unfold initializeLevels
      rw [h]
      rfl
    · intro l hl
      simp only [mkDefaultLevels, List.mem_cons, List.not_mem_nil, or_false] at hl
      rcases hl with rfl | rfl | rfl | rfl | rfl <;> rfl

/-- C8 — witness: seeding each kind in the empty store succeeds with the
five defaults; repeating against a store already holding entries of that
kind fails with the already-initialized error. -/
theorem c8_witness :
    countStatusesOf 1 emptyStore = 0 ∧
    initializeStatuses 1 emptyStore =
      .ok (seedStatusesStore 1 emptyStore, mkDefaultStatuses 1 emptyStore.nextId) ∧
    0 < countStatusesOf 1 storeC3 ∧
    initializeStatuses 1 storeC3 = .error .alreadyInitialized ∧
    countCategoriesOf 1 emptyStore = 0 ∧
    initializeCategories 1 emptyStore =
      .ok (seedCategoriesStore 1 emptyStore, mkDefaultCategories 1 emptyStore.nextId) ∧
    0 < countCategoriesOf 1 storeC9 ∧
    initializeCategories 1 storeC9 = .error .alreadyInitialized ∧
    countLevelsOf 1 emptyStore = 0 ∧
    initializeLevels 1 emptyStore =
      .ok (seedLevelsStore 1 emptyStore, mkDefaultLevels 1 emptyStore.nextId) ∧
    0 < countLevelsOf 1 storeLevels ∧
    initializeLevels 1 storeLevels = .error .alreadyInitialized :=
  ⟨rfl, (c8_initialize_defaults.2.1 1 emptyStore rfl).1, by decide,
   c8_initialize_defaults.1 1 storeC3 (by decide), rfl,
   (c8_initialize_defaults.2.2.2.1 1 emptyStore rfl).1, by decide,
   c8_initialize_defaults.2.2.1 1 storeC9 (by decide), rfl,
   (c8_initialize_defaults.2.2.2.2.2 1 emptyStore rfl).1, by decide,
   c8_initialize_defaults.2.2.2.2.1 1 storeLevels (by decide)⟩

/-- C9 — confirmed.  Every successful task status update and every
successful category update (renames included) leaves the stored task
documents entirely unchanged: the handlers write only the taxonomy
document, so tasks keep the old `status`/`category` strings. -/
theorem c9_rename_frame_tasks :
    (∀ (uid sid : Nat) (b : StatusBody) (st st' : Store) (s : TaskStatusRec),
      statusUpdate uid sid b st = .ok (st', s) → st'.tasks = st.tasks) ∧
    (∀ (uid cid : Nat) (b : CategoryBody) (st st' : Store) (c : CategoryRec),
      categoryUpdate uid cid b st = .ok (st', c) → st'.tasks = st.tasks) := by
  constructor
  · intro uid sid b st st' s h
    unfold statusUpdate at h
    split at h
    · simp at h
    · split at h
      · simp at h
      · split at h
        · simp at h
        · simp only [Except.ok.injEq, Prod.mk.injEq] at h
          obtain ⟨h1, h2⟩ := h
          subst h1
          rfl
  · intro uid cid b st st' c h
    unfold categoryUpdate at h
    split at h
    · simp at h
    · split at h
      · simp at h
      · split at h
        · simp at h
        · simp only [Except.ok.injEq, Prod.mk.injEq] at h
          obtain ⟨h1, h2⟩ := h
          subst h1
          rfl

/-- C9 — witness: renaming the seeded `To Do` status to `Queued` and the
`Work` category to `Office` both succeed, while the task naming `To Do`
and `Work` is untouched. -/
theorem c9_witness :
    statusUpdate 1 1 bodyRename storeC9 = .ok statusUpdateResultC9 ∧
    statusUpdateResultC9.2.name = "Queued" ∧
    statusUpdateResultC9.1.tasks = storeC9.tasks ∧
    taskToDoRow.status = "To Do" ∧
    categoryUpdate 1 7 bodyRenameCat storeC9 = .ok categoryUpdateResultC9 ∧
    categoryUpdateResultC9.2.name = "Office" ∧
    categoryUpdateResultC9.1.tasks = storeC9.tasks := by
  refine ⟨rfl, rfl, ?_, rfl, rfl, rfl, ?_⟩
  · exact c9_rename_frame_tasks.1 1 1 bodyRename storeC9
      statusUpdateResultC9.1 statusUpdateResultC9.2 rfl
  · exact c9_rename_frame_tasks.2 1 7 bodyRenameCat storeC9
      categoryUpdateResultC9.1 categoryUpdateResultC9.2 rfl

/-- C10 — confirmed.  Any task create or update request whose `status`
value lies outside the legacy vocabulary (todo, in_progress, completed) is
answered with the Joi validation error before any write: the store is
untouched.  In particular the seeded dynamic names like `To Do` are never
accepted by the task routes. -/
theorem c10_nonlegacy_status_rejected :
    ∀ (s : String), legacyStatuses.contains s = false →
    ∀ (b : TaskBody), b.status = some s →
    ∀ (uid tid now : Nat) (st : Store),
      taskCreate uid b now st = .error .validationError ∧
      taskUpdate uid tid b now st = .error .validationError ∧
      runTaskCreate uid b now st = st ∧
      runTaskUpdate ⟨uid, tid, b, now⟩ st = st := by
  intro s hs b hb uid tid now st
  have hv : taskBodyValid now b = false := by
    unfold taskBodyValid
    rw [hb]
    simp at hs
    simp [hs]
  have hc : taskCreate uid b now st = .error .validationError := by
    unfold taskCreate
    simp [hv]
  have hu : taskUpdate uid tid b now st = .error .validationError := by
    unfold taskUpdate
    simp [hv]
  refine ⟨hc, hu, ?_, ?_⟩
  · unfold runTaskCreate
    rw [hc]
  · unfold runTaskUpdate
    rw [hu]

/-- C10 — witness: the seeded dynamic name `To Do` is rejected by both the
create and the update route, with no write. -/
theorem c10_witness :
    taskCreate 1 bodyToDoName 100 storeC9 = .error .validationError ∧
    taskUpdate 1 6 bodyToDoName 100 storeC9 = .error .validationError ∧
    runTaskCreate 1 bodyToDoName 100 storeC9 = storeC9 ∧
    runTaskUpdate ⟨1, 6, bodyToDoName, 100⟩ storeC9 = storeC9 :=
  c10_nonlegacy_status_rejected "To Do" (by decide) bodyToDoName rfl 1 6 100 storeC9
